import Mathlib

/- Shallow embedding of the streaming trade engine of the Binance trading bot:
   config/settings.py, utils/profit_check.py, utils/position_manager.py,
   run_trading_stream.py and bot_control/control_center.py.
   Prices and ratios are rationals; the file-based position store is a map from
   symbol to optional file content; external collaborators (exchange queries,
   order placement, file system outcomes) are supplied as explicit inputs. -/

/-- Trading settings: the constants of config/settings.py together with the
getattr defaults used in utils/profit_check.py and run_trading_stream.py
(USE_MIN_PROFIT_FOR_STRATEGY_SELL is absent from settings.py, so its getattr
default is false). -/
structure Settings where
  useStopLoss : Bool
  useTakeProfit : Bool
  useMinProfit : Bool
  useMinProfitForStrategySell : Bool
  stopLossRatio : ℚ
  takeProfitRatio : ℚ
  minProfitRatio : ℚ

/-- Position store: per-symbol content of data/last_buy_price_SYMBOL.json.
none: no file (no open position); some none: the file exists but holds no
readable price; some (some e): the file records entry price e. -/
abbrev PositionStore := String → Option (Option ℚ)

/-- has_open_position of utils/position_manager.py: the position file exists. -/
def has_open_position (st : PositionStore) (symbol : String) : Bool :=
  (st symbol).isSome

/-- load_last_buy_price of utils/position_manager.py: None when the file is
missing or unreadable, otherwise the stored price. -/
def load_last_buy_price (st : PositionStore) (symbol : String) : Option ℚ :=
  (st symbol).join

/-- save_last_buy_price of utils/position_manager.py: returns without writing
when a position file already exists; writeOk models the try/except around the
directory creation and file write. -/
def save_last_buy_price (st : PositionStore) (symbol : String) (price : ℚ)
    (writeOk : Bool) : PositionStore :=
  if (st symbol).isSome then st
  else if writeOk then fun s => if s = symbol then some (some price) else st s
  else st

/-- clear_position of utils/position_manager.py: removes the position file if
it exists; removeOk models the try/except around os.remove. -/
def clear_position (st : PositionStore) (symbol : String) (removeOk : Bool) :
    PositionStore :=
  if (st symbol).isSome then
    if removeOk then fun s => if s = symbol then none else st s else st
  else st

/-- is_enough_profit of utils/profit_check.py: false when the last buy price
is missing or not positive, otherwise current_price >= target sell price
last_buy_price * (1 + MIN_PROFIT_RATIO). -/
def is_enough_profit (s : Settings) (symbol : String) (current_price : ℚ)
    (last_buy_price : Option ℚ) : Bool :=
  match last_buy_price with
  | none => false
  | some e =>
    if e ≤ 0 then false
    else decide (current_price ≥ e * (1 + s.minProfitRatio))

/-- is_stop_loss_triggered of utils/profit_check.py: false when USE_STOP_LOSS
is off or the last buy price is missing or not positive, otherwise the price
change ratio (current - entry) / entry is strictly below STOP_LOSS_RATIO. -/
def is_stop_loss_triggered (s : Settings) (symbol : String) (current_price : ℚ)
    (last_buy_price : Option ℚ) : Bool :=
  if s.useStopLoss = false then false
  else match last_buy_price with
  | none => false
  | some e =>
    if e ≤ 0 then false
    else decide ((current_price - e) / e < s.stopLossRatio)

/-- is_take_profit_reached of utils/profit_check.py: false when USE_TAKE_PROFIT
is off or the last buy price is missing or not positive, otherwise the price
change ratio (current - entry) / entry is at or above TAKE_PROFIT_RATIO. -/
def is_take_profit_reached (s : Settings) (symbol : String) (current_price : ℚ)
    (last_buy_price : Option ℚ) : Bool :=
  if s.useTakeProfit = false then false
  else match last_buy_price with
  | none => false
  | some e =>
    if e ≤ 0 then false
    else decide ((current_price - e) / e ≥ s.takeProfitRatio)

/-- External collaborators consulted during one tick: the exchange LOT_SIZE
filter (get_lot_size min_qty), the spot balance (get_asset_balance_async),
whether place_order succeeds without exception, and the file-system outcomes
of the position store writes. -/
structure ExtEnv where
  minQty : Option ℚ
  balance : Option ℚ
  placeOrderOk : Bool
  writeOk : Bool
  removeOk : Bool

/-- Order side passed to execute_trade_action of run_trading_stream.py. -/
inductive TradeAction
  | buy
  | sell
deriving DecidableEq

/-- execute_trade_action of run_trading_stream.py: places the order; if it is
not placed (or an exception is raised) nothing changes and False is returned;
on success the position is recorded (buy) or cleared (sell) and True is
returned. -/
def execute_trade_action (a : TradeAction) (symbol : String) (price : ℚ)
    (env : ExtEnv) (st : PositionStore) : Bool × PositionStore :=
  if env.placeOrderOk = false then (false, st)
  else match a with
  | .buy => (true, save_last_buy_price st symbol price env.writeOk)
  | .sell => (true, clear_position st symbol env.removeOk)

/-- Which branch of check_and_handle_risk_conditions issued a sell order. -/
inductive SellTrigger
  | stopLoss
  | takeProfit
  | minProfit
deriving DecidableEq

/-- Result of one call to check_and_handle_risk_conditions: which sell branch
(if any) invoked execute_trade_action, its returned boolean, and the position
store afterwards. -/
structure RiskOutcome where
  sellCall : Option SellTrigger
  sold : Bool
  store : PositionStore

/-- check_and_handle_risk_conditions of run_trading_stream.py, lines 93-167:
skip when no position or no loadable buy price; the hard guard blocks any sell
when the price is below entry and no predicate fires; missing LOT_SIZE or
balance skips; a balance below min_qty skips; a zero balance clears the
position; then stop-loss, take-profit and (only without a strategy sell
signal) minimum-profit each force a sell, first match wins. -/
def check_and_handle_risk_conditions (s : Settings) (env : ExtEnv)
    (st : PositionStore) (symbol : String) (current_price : ℚ)
    (strategy_has_issued_sell : Bool) : RiskOutcome :=
  if has_open_position st symbol = false then ⟨none, false, st⟩
  else match load_last_buy_price st symbol with
  | none => ⟨none, false, st⟩
  | some last_buy_price =>
    if current_price < last_buy_price
        ∧ is_stop_loss_triggered s symbol current_price (some last_buy_price) = false
        ∧ is_take_profit_reached s symbol current_price (some last_buy_price) = false
        ∧ is_enough_profit s symbol current_price (some last_buy_price) = false then
      ⟨none, false, st⟩
    else match env.minQty with
    | none => ⟨none, false, st⟩
    | some min_qty =>
      match env.balance with
      | none => ⟨none, false, st⟩
      | some balance =>
        if balance < min_qty ∧ balance ≠ 0 then ⟨none, false, st⟩
        else if balance = 0 then ⟨none, false, clear_position st symbol env.removeOk⟩
        else if s.useStopLoss = true
            ∧ is_stop_loss_triggered s symbol current_price (some last_buy_price) = true then
          let r := execute_trade_action .sell symbol current_price env st
          ⟨some .stopLoss, r.1, r.2⟩
        else if s.useTakeProfit = true
            ∧ is_take_profit_reached s symbol current_price (some last_buy_price) = true then
          let r := execute_trade_action .sell symbol current_price env st
          ⟨some .takeProfit, r.1, r.2⟩
        else if s.useMinProfit = true ∧ strategy_has_issued_sell = false
            ∧ is_enough_profit s symbol current_price (some last_buy_price) = true then
          let r := execute_trade_action .sell symbol current_price env st
          ⟨some .minProfit, r.1, r.2⟩
        else ⟨none, false, st⟩

/-- Strategy signal returned by check_buy_sell_signals of
services/trade_logic.py (which catches indicator errors internally and
returns hold). -/
inductive Signal
  | buy
  | sell
  | hold
deriving DecidableEq

/-- Observable outcome of the decision part of one loop iteration of
price_processor: the sell branches that invoked execute_trade_action, whether
a buy execution call was made, whether an exception escaped the per-tick code,
and the position store afterwards. -/
structure TickResult where
  sellCalls : List SellTrigger
  buyCall : Bool
  error : Bool
  store : PositionStore

/-- Decision path of one tick of price_processor (run_trading_stream.py,
lines 222-283), for a tick whose window already holds enough history.
Step 1 runs the risk checks with strategy_has_issued_sell False; a completed
risk sell ends the tick. Otherwise the strategy signal is handled: a buy is
dropped when a position is open, else executed; a sell re-runs the risk checks
with strategy_has_issued_sell True and then always raises, because line 270
reads the local proceed_with_strategy_sell, which is assigned only inside the
USE_MIN_PROFIT_FOR_STRATEGY_SELL sub-branch (NameError), and that sub-branch
itself calls is_enough_profit with two of its three required arguments
(TypeError); a hold with no action so far runs the risk checks again. -/
def processTick (s : Settings) (env : ExtEnv) (st : PositionStore)
    (symbol : String) (signal : Signal) (price : ℚ) : TickResult :=
  let r1 := check_and_handle_risk_conditions s env st symbol price false
  if r1.sold = true then ⟨r1.sellCall.toList, false, false, r1.store⟩
  else match signal with
  | .buy =>
    if has_open_position r1.store symbol = true then
      ⟨r1.sellCall.toList, false, false, r1.store⟩
    else
      let r := execute_trade_action .buy symbol price env r1.store
      ⟨r1.sellCall.toList, true, false, r.2⟩
  | .sell =>
    let r2 := check_and_handle_risk_conditions s env r1.store symbol price true
    ⟨r1.sellCall.toList ++ r2.sellCall.toList, false, true, r2.store⟩
  | .hold =>
    let r3 := check_and_handle_risk_conditions s env r1.store symbol price false
    ⟨r1.sellCall.toList ++ r3.sellCall.toList, false, false, r3.store⟩

/-- Fate of the price_processor main loop after one tick. -/
inductive TickFate
  | continueLoop
  | exitStopSet
deriving DecidableEq

/-- Outer exception handling of price_processor (run_trading_stream.py, lines
285-291): an exception escaping the per-tick code is caught outside the while
loop, stop_event is set, and the coroutine returns; otherwise the loop
continues with the next tick. -/
def tickFate (t : TickResult) : TickFate :=
  if t.error = true then .exitStopSet else .continueLoop

/-- One append to the rolling price window, collections.deque with maxlen cap
(run_trading_stream.py, lines 198-201 and 214): at capacity the oldest price
is evicted from the left. -/
def pushPrice (cap : ℕ) (w : List ℚ) (x : ℚ) : List ℚ :=
  if w.length < cap then w ++ [x] else w.tail ++ [x]

/-- The price window after appending a sequence of prices to an empty deque
of capacity cap. -/
def priceWindow (cap : ℕ) (xs : List ℚ) : List ℚ :=
  xs.foldl (pushPrice cap) []

/-- CURRENT_STATE of bot_control/control_center.py: the running flag, the
active profile name, the three task handles (modelled as optional task ids)
and the stop event (modelled as its is_set value). -/
structure ControlState where
  running : Bool
  profile_name : Option String
  main_task : Option ℕ
  listener_task : Option ℕ
  processor_task : Option ℕ
  stop_event : Option Bool

/-- Message returned by start_trading. -/
inductive StartMsg
  | alreadyRunning (profile : Option String)
  | started (profile : String)
deriving DecidableEq

/-- Result of start_trading: the state after the call, the returned message
and how many asyncio tasks the call created. -/
structure StartResult where
  state : ControlState
  msg : StartMsg
  tasksCreated : ℕ

/-- start_trading of bot_control/control_center.py: when CURRENT_STATE
running is set it only returns the already-running message; otherwise
_internal_stop_logic runs (stale stop event set, stale tasks cancelled and
awaited), CURRENT_STATE is reset, the profile is registered, running is set
and one main task is created (its children register themselves later, from
trade_main). -/
def start_trading (profile_name : String) (newTaskId : ℕ)
    (st : ControlState) : StartResult :=
  if st.running = true then ⟨st, .alreadyRunning st.profile_name, 0⟩
  else
    ⟨{ running := true
       profile_name := some profile_name
       main_task := some newTaskId
       listener_task := none
       processor_task := none
       stop_event := none },
     .started profile_name, 1⟩

/-- The values assigned in config/settings.py: USE_STOP_LOSS with ratio -0.02,
USE_TAKE_PROFIT with ratio 0.05, USE_MIN_PROFIT with ratio 0.002, and the
absent USE_MIN_PROFIT_FOR_STRATEGY_SELL defaulting to false. -/
def defaultSettings : Settings where
  useStopLoss := true
  useTakeProfit := true
  useMinProfit := true
  useMinProfitForStrategySell := false
  stopLossRatio := -1/50
  takeProfitRatio := 1/20
  minProfitRatio := 1/500

/-- A store with one open position: XRPUSDT bought at entry price 100. -/
def openStoreXRP : PositionStore :=
  fun s => if s = "XRPUSDT" then some (some 100) else none

/-- A store with no open position for any symbol. -/
def emptyStore : PositionStore := fun _ => none

/-- A benign environment: LOT_SIZE known, balance well above min_qty and
nonzero, order placement and file operations succeed. -/
def okEnv : ExtEnv where
  minQty := some 1
  balance := some 5
  placeOrderOk := true
  writeOk := true
  removeOk := true

/-- A CURRENT_STATE with a session registered as running. -/
def runningState : ControlState where
  running := true
  profile_name := some "x"
  main_task := some 0
  listener_task := some 1
  processor_task := some 2
  stop_event := some false

theorem stop_loss_iff (s : Settings) (symbol : String) (P e : ℚ) :
    is_stop_loss_triggered s symbol P (some e) = true ↔
      s.useStopLoss = true ∧ 0 < e ∧ (P - e) / e < s.stopLossRatio := by
  simp only [is_stop_loss_triggered]
  split_ifs with h1 h2
  · simp [h1]
  · simp only [Bool.not_eq_false] at h1
    simp [h1, not_lt.mpr h2]
  · simp only [Bool.not_eq_false] at h1
    simp [h1, not_le.mp h2]

theorem take_profit_iff (s : Settings) (symbol : String) (P e : ℚ) :
    is_take_profit_reached s symbol P (some e) = true ↔
      s.useTakeProfit = true ∧ 0 < e ∧ (P - e) / e ≥ s.takeProfitRatio := by
  simp only [is_take_profit_reached]
  split_ifs with h1 h2
  · simp [h1]
  · simp only [Bool.not_eq_false] at h1
    simp [h1, not_lt.mpr h2]
  · simp only [Bool.not_eq_false] at h1
    simp [h1, not_le.mp h2]

theorem enough_profit_iff (s : Settings) (symbol : String) (P e : ℚ) :
    is_enough_profit s symbol P (some e) = true ↔
      0 < e ∧ e * (1 + s.minProfitRatio) ≤ P := by
  simp only [is_enough_profit]
  split_ifs with h2
  · simp [not_lt.mpr h2]
  · simp [not_le.mp h2, ge_iff_le]

/-- C5 counterexample: with the settings of settings.py (take-profit ratio
0.05), entry 100 and price 105 give a return of exactly 0.05, which is not
strictly above the ratio, yet is_take_profit_reached returns true: the code
compares with greater-or-equal, not strictly greater. -/
theorem take_profit_true_at_exact_threshold :
    is_take_profit_reached defaultSettings "XRPUSDT" 105 (some 100) = true
      ∧ ¬(((105 : ℚ) - 100) / 100 > defaultSettings.takeProfitRatio) := by
  constructor
  · norm_num [is_take_profit_reached, defaultSettings]
  · norm_num [defaultSettings]

/-- C5 (amended): for an open position with entry price e > 0 and enabled
risk flags, the stop-loss check returns true exactly when the return since
entry is strictly below the (negative) stop-loss ratio, and the take-profit
check returns true exactly when the return is at or above the (positive)
take-profit ratio; the scenario entry 100, ratio -0.02, price 97 follows. -/
theorem stop_loss_take_profit_characterization (s : Settings) (symbol : String)
    (P e : ℚ) (hsl : s.useStopLoss = true) (htp : s.useTakeProfit = true)
    (he : 0 < e) :
    (is_stop_loss_triggered s symbol P (some e) = true
        ↔ (P - e) / e < s.stopLossRatio)
      ∧ (is_take_profit_reached s symbol P (some e) = true
        ↔ (P - e) / e ≥ s.takeProfitRatio) := by
  constructor
  · rw [stop_loss_iff]
    simp [hsl, he]
  · rw [take_profit_iff]
    simp [htp, he]

/-- C5 witness: the spec scenario. With the settings of settings.py
(stop-loss ratio -0.02) a position entered at 100 and a tick at 97 (return
-3 percent) triggers the stop-loss. -/
theorem stop_loss_take_profit_characterization_witness :
    defaultSettings.useStopLoss = true ∧ (0 : ℚ) < 100
      ∧ is_stop_loss_triggered defaultSettings "XRPUSDT" 97 (some 100) = true := by
  refine ⟨rfl, by norm_num, ?_⟩
  exact (stop_loss_take_profit_characterization defaultSettings "XRPUSDT" 97 100
    rfl rfl (by norm_num)).1.mpr (by norm_num [defaultSettings])

/-- C6: whenever both the stop-loss and the take-profit predicates hold for
the open position on a tick that reaches the forced-sell checks (lot size
known, balance loaded, at least min_qty and nonzero, order placement
succeeding), the executed sell is the stop-loss one: stop-loss is evaluated
first and first match wins. -/
theorem stop_loss_priority_over_take_profit (s : Settings) (env : ExtEnv)
    (st : PositionStore) (symbol : String) (P e mq b : ℚ) (strat : Bool)
    (hopen : st symbol = some (some e))
    (hSL : is_stop_loss_triggered s symbol P (some e) = true)
    (hTP : is_take_profit_reached s symbol P (some e) = true)
    (hmq : env.minQty = some mq) (hb : env.balance = some b)
    (hbig : ¬(b < mq ∧ b ≠ 0)) (hb0 : b ≠ 0)
    (hord : env.placeOrderOk = true) :
    (check_and_handle_risk_conditions s env st symbol P strat).sellCall
        = some SellTrigger.stopLoss
      ∧ (check_and_handle_risk_conditions s env st symbol P strat).sold = true := by
  have hflag : s.useStopLoss = true := ((stop_loss_iff s symbol P e).mp hSL).1
  have hload : load_last_buy_price st symbol = some e := by
    simp [load_last_buy_price, hopen]
  have hhas : has_open_position st symbol = true := by
    simp [has_open_position, hopen]
  unfold check_and_handle_risk_conditions
  rw [hhas, hload]
  simp only [Bool.true_eq_false, if_false, hmq, hb, hSL, hTP]
  rw [if_neg (by simp), if_neg hbig, if_neg hb0,
    if_pos ⟨hflag, trivial⟩]
  simp [execute_trade_action, hord]

/-- C6 witness: with a (misconfigured) positive stop-loss ratio 0.1 and
take-profit ratio 0.05, entry 100 and price 107 make both predicates true,
and the stop-loss sell is the one executed. -/
theorem stop_loss_priority_over_take_profit_witness :
    openStoreXRP "XRPUSDT" = some (some 100)
      ∧ (check_and_handle_risk_conditions
          { defaultSettings with stopLossRatio := 1/10 } okEnv openStoreXRP
          "XRPUSDT" 107 false).sellCall = some SellTrigger.stopLoss := by
  have hSL : is_stop_loss_triggered { defaultSettings with stopLossRatio := 1/10 }
      "XRPUSDT" 107 (some 100) = true := by
    norm_num [is_stop_loss_triggered, defaultSettings]
  have hTP : is_take_profit_reached { defaultSettings with stopLossRatio := 1/10 }
      "XRPUSDT" 107 (some 100) = true := by
    norm_num [is_take_profit_reached, defaultSettings]
  refine ⟨by norm_num [openStoreXRP], ?_⟩
  exact (stop_loss_priority_over_take_profit
    { defaultSettings with stopLossRatio := 1/10 } okEnv openStoreXRP
    "XRPUSDT" 107 100 1 5 false (by norm_num [openStoreXRP]) hSL hTP rfl rfl
    (by norm_num) (by norm_num) rfl).1

theorem priceWindow_append (cap : ℕ) (xs : List ℚ) (x : ℚ) :
    priceWindow cap (xs ++ [x]) = pushPrice cap (priceWindow cap xs) x := by
  simp [priceWindow, List.foldl_append]

theorem priceWindow_eq_drop (cap : ℕ) (hc : 0 < cap) (xs : List ℚ) :
    priceWindow cap xs = xs.drop (xs.length - cap) := by
  induction xs using List.reverseRecOn with
  | nil => simp [priceWindow]
  | append_singleton xs x ih =>
    rw [priceWindow_append, ih]
    by_cases hlen : xs.length < cap
    · have h0 : xs.length - cap = 0 := Nat.sub_eq_zero_of_le (Nat.le_of_lt hlen)
      have h0b : xs.length + 1 - cap = 0 := Nat.sub_eq_zero_of_le hlen
      rw [h0, List.drop_zero, pushPrice, if_pos hlen]
      simp [h0b]
    · push_neg at hlen
      have hdl : (xs.drop (xs.length - cap)).length = cap := by
        rw [List.length_drop]
        omega
      rw [pushPrice, if_neg (by rw [hdl]; exact lt_irrefl cap), List.tail_drop]
      have he1 : xs.length - cap + 1 = xs.length + 1 - cap := by omega
      have hle : xs.length + 1 - cap ≤ xs.length := by omega
      rw [he1]
      simp [List.drop_append_of_le_length hle]

/-- C7: appending any sequence of N prices to an empty window of positive
capacity cap leaves the window holding exactly min N cap prices, equal to the
last cap appended prices in append order. -/
theorem price_window_invariant (cap : ℕ) (xs : List ℚ) (hc : 0 < cap) :
    (priceWindow cap xs).length = min xs.length cap
      ∧ priceWindow cap xs = xs.drop (xs.length - cap) := by
  have h := priceWindow_eq_drop cap hc xs
  refine ⟨?_, h⟩
  rw [h, List.length_drop]
  omega

/-- C7 witness: capacity 3 with pushes 1,2,3,4 yields the window 2,3,4 of
length min 4 3. -/
theorem price_window_invariant_witness :
    0 < 3 ∧ (priceWindow 3 [1, 2, 3, 4]).length = min 4 3
      ∧ priceWindow 3 [1, 2, 3, 4] = [2, 3, 4] := by
  have h := price_window_invariant 3 [1, 2, 3, 4] (by norm_num)
  exact ⟨by norm_num, h.1, h.2⟩

/-- C8: calling start_trading while CURRENT_STATE reports a running session
returns the already-running message with the active profile, creates no task,
and leaves the whole state (running flag, profile name, task handles, stop
event) unchanged. -/
theorem start_trading_already_running_no_side_effect (st : ControlState)
    (name : String) (tid : ℕ) (h : st.running = true) :
    start_trading name tid st
      = ⟨st, StartMsg.alreadyRunning st.profile_name, 0⟩ := by
  simp [start_trading, h]

/-- C8 witness: a second start_trading call on a running state for profile x
returns the already-running message and changes nothing. -/
theorem start_trading_already_running_no_side_effect_witness :
    runningState.running = true
      ∧ start_trading "x" 7 runningState
        = ⟨runningState, StartMsg.alreadyRunning (some "x"), 0⟩ := by
  exact ⟨rfl, start_trading_already_running_no_side_effect runningState "x" 7 rfl⟩

/-- C9: save_last_buy_price never overwrites an existing position: when the
position file for the symbol exists, the call leaves the store unchanged,
whatever the new price and whatever the file-system outcome. -/
theorem save_last_buy_price_noop_when_open (st : PositionStore)
    (symbol : String) (p : ℚ) (w : Bool)
    (h : has_open_position st symbol = true) :
    save_last_buy_price st symbol p w = st := by
  simp only [has_open_position] at h
  simp [save_last_buy_price, h]

/-- C9 witness: with XRPUSDT open at entry 100, recording a new buy price 123
leaves the store unchanged. -/
theorem save_last_buy_price_noop_when_open_witness :
    has_open_position openStoreXRP "XRPUSDT" = true
      ∧ save_last_buy_price openStoreXRP "XRPUSDT" 123 true = openStoreXRP := by
  refine ⟨by simp [has_open_position, openStoreXRP], ?_⟩
  exact save_last_buy_price_noop_when_open openStoreXRP "XRPUSDT" 123 true
    (by simp [has_open_position, openStoreXRP])

/-- C10: each of the three risk predicates returns false whenever the last
buy price is missing or not strictly positive, so the division by the entry
price in the return computation is never reached in that case. -/
theorem risk_predicates_false_without_entry_price (s : Settings)
    (symbol : String) (P : ℚ) (lb : Option ℚ)
    (h : lb = none ∨ ∃ e, lb = some e ∧ e ≤ 0) :
    is_enough_profit s symbol P lb = false
      ∧ is_stop_loss_triggered s symbol P lb = false
      ∧ is_take_profit_reached s symbol P lb = false := by
  rcases h with h | ⟨e, he, hle⟩
  · subst h
    refine ⟨rfl, ?_, ?_⟩
    · simp [is_stop_loss_triggered]
    · simp [is_take_profit_reached]
  · subst he
    exact ⟨by simp [is_enough_profit, hle],
      by simp [is_stop_loss_triggered, hle],
      by simp [is_take_profit_reached, hle]⟩

/-- C10 witness: a recorded entry price of 0 makes all three predicates
return false at price 5. -/
theorem risk_predicates_false_without_entry_price_witness :
    (some (0 : ℚ) = none ∨ ∃ e, some (0 : ℚ) = some e ∧ e ≤ 0)
      ∧ is_enough_profit defaultSettings "XRPUSDT" 5 (some 0) = false
      ∧ is_stop_loss_triggered defaultSettings "XRPUSDT" 5 (some 0) = false
      ∧ is_take_profit_reached defaultSettings "XRPUSDT" 5 (some 0) = false := by
  have h := risk_predicates_false_without_entry_price defaultSettings "XRPUSDT"
    5 (some 0) (Or.inr ⟨0, rfl, le_refl 0⟩)
  exact ⟨Or.inr ⟨0, rfl, le_refl 0⟩, h.1, h.2.1, h.2.2⟩


theorem risk_spec (s : Settings) (env : ExtEnv) (st : PositionStore)
    (symbol : String) (P : ℚ) (strat : Bool) :
    ((check_and_handle_risk_conditions s env st symbol P strat).store = st
      ∨ (check_and_handle_risk_conditions s env st symbol P strat).store
        = clear_position st symbol env.removeOk)
    ∧ (((check_and_handle_risk_conditions s env st symbol P strat).sellCall = none
        ∧ (check_and_handle_risk_conditions s env st symbol P strat).sold = false)
      ∨ ∃ e, load_last_buy_price st symbol = some e
        ∧ (((check_and_handle_risk_conditions s env st symbol P strat).sellCall
              = some SellTrigger.stopLoss
            ∧ s.useStopLoss = true
            ∧ is_stop_loss_triggered s symbol P (some e) = true)
          ∨ ((check_and_handle_risk_conditions s env st symbol P strat).sellCall
              = some SellTrigger.takeProfit
            ∧ s.useTakeProfit = true
            ∧ is_take_profit_reached s symbol P (some e) = true)
          ∨ ((check_and_handle_risk_conditions s env st symbol P strat).sellCall
              = some SellTrigger.minProfit
            ∧ s.useMinProfit = true ∧ strat = false
            ∧ is_enough_profit s symbol P (some e) = true))) := by
  unfold check_and_handle_risk_conditions
  by_cases h1 : has_open_position st symbol = false
  · rw [if_pos h1]
    exact ⟨Or.inl rfl, Or.inl ⟨rfl, rfl⟩⟩
  · rw [if_neg h1]
    rcases hload : load_last_buy_price st symbol with _ | e
    · exact ⟨Or.inl rfl, Or.inl ⟨rfl, rfl⟩⟩
    · dsimp only
      by_cases h2 : P < e
          ∧ is_stop_loss_triggered s symbol P (some e) = false
          ∧ is_take_profit_reached s symbol P (some e) = false
          ∧ is_enough_profit s symbol P (some e) = false
      · rw [if_pos h2]
        exact ⟨Or.inl rfl, Or.inl ⟨rfl, rfl⟩⟩
      · rw [if_neg h2]
        rcases hmq : env.minQty with _ | mq
        · exact ⟨Or.inl rfl, Or.inl ⟨rfl, rfl⟩⟩
        · dsimp only
          rcases hb : env.balance with _ | b
          · exact ⟨Or.inl rfl, Or.inl ⟨rfl, rfl⟩⟩
          · dsimp only
            by_cases h3 : b < mq ∧ b ≠ 0
            · rw [if_pos h3]
              exact ⟨Or.inl rfl, Or.inl ⟨rfl, rfl⟩⟩
            · rw [if_neg h3]
              by_cases h4 : b = 0
              · rw [if_pos h4]
                exact ⟨Or.inr rfl, Or.inl ⟨rfl, rfl⟩⟩
              · rw [if_neg h4]
                by_cases h5 : s.useStopLoss = true
                    ∧ is_stop_loss_triggered s symbol P (some e) = true
                · rw [if_pos h5]
                  refine ⟨?_, Or.inr ⟨e, rfl, Or.inl ⟨rfl, h5.1, h5.2⟩⟩⟩
                  by_cases h8 : env.placeOrderOk = false
                  · exact Or.inl (by simp [execute_trade_action, h8])
                  · exact Or.inr (by simp [execute_trade_action, h8])
                · rw [if_neg h5]
                  by_cases h6 : s.useTakeProfit = true
                      ∧ is_take_profit_reached s symbol P (some e) = true
                  · rw [if_pos h6]
                    refine ⟨?_, Or.inr ⟨e, rfl, Or.inr (Or.inl ⟨rfl, h6.1, h6.2⟩)⟩⟩
                    by_cases h8 : env.placeOrderOk = false
                    · exact Or.inl (by simp [execute_trade_action, h8])
                    · exact Or.inr (by simp [execute_trade_action, h8])
                  · rw [if_neg h6]
                    by_cases h7 : s.useMinProfit = true ∧ strat = false
                        ∧ is_enough_profit s symbol P (some e) = true
                    · rw [if_pos h7]
                      refine ⟨?_, Or.inr ⟨e, rfl,
                        Or.inr (Or.inr ⟨rfl, h7.1, h7.2.1, h7.2.2⟩)⟩⟩
                      by_cases h8 : env.placeOrderOk = false
                      · exact Or.inl (by simp [execute_trade_action, h8])
                      · exact Or.inr (by simp [execute_trade_action, h8])
                    · rw [if_neg h7]
                      exact ⟨Or.inl rfl, Or.inl ⟨rfl, rfl⟩⟩

theorem clear_position_symbol_cases (st : PositionStore) (symbol : String)
    (ok : Bool) :
    clear_position st symbol ok = st
      ∨ (clear_position st symbol ok) symbol = none := by
  unfold clear_position
  by_cases h : (st symbol).isSome = true
  · rw [if_pos h]
    by_cases hk : ok = true
    · rw [if_pos hk]
      right
      simp
    · rw [if_neg hk]
      left
      rfl
  · rw [if_neg h]
    left
    rfl

theorem risk_store_load (s : Settings) (env : ExtEnv) (st : PositionStore)
    (symbol : String) (P : ℚ) (strat : Bool) :
    load_last_buy_price
        (check_and_handle_risk_conditions s env st symbol P strat).store symbol
      = load_last_buy_price st symbol
    ∨ ((check_and_handle_risk_conditions s env st symbol P strat).store) symbol
      = none := by
  rcases (risk_spec s env st symbol P strat).1 with h | h
  · left
    rw [h]
  · rcases clear_position_symbol_cases st symbol env.removeOk with h2 | h2
    · left
      rw [h, h2]
    · right
      rw [h]
      exact h2

theorem risk_minprofit_only (s : Settings) (env : ExtEnv) (st2 : PositionStore)
    (symbol : String) (P : ℚ) (strat : Bool) (e : ℚ)
    (hload : load_last_buy_price st2 symbol = some e ∨ st2 symbol = none)
    (hSL : is_stop_loss_triggered s symbol P (some e) = false)
    (hTP : is_take_profit_reached s symbol P (some e) = false) :
    (check_and_handle_risk_conditions s env st2 symbol P strat).sellCall = none
    ∨ ((check_and_handle_risk_conditions s env st2 symbol P strat).sellCall
        = some SellTrigger.minProfit
      ∧ s.useMinProfit = true ∧ strat = false
      ∧ is_enough_profit s symbol P (some e) = true) := by
  rcases (risk_spec s env st2 symbol P strat).2 with ⟨h, _⟩ | ⟨e2, hl2, hcase⟩
  · left
    exact h
  · have he2 : e2 = e := by
      rcases hload with hl | hl
      · rw [hl2] at hl
        exact Option.some_inj.mp hl
      · rw [load_last_buy_price, hl] at hl2
        simp at hl2
    subst he2
    rcases hcase with ⟨_, _, htrig⟩ | ⟨_, _, htrig⟩ | ⟨hc, hflag, hstrat, htrig⟩
    · rw [hSL] at htrig
      simp at htrig
    · rw [hTP] at htrig
      simp at htrig
    · right
      exact ⟨hc, hflag, hstrat, htrig⟩

theorem risk_sold_false_of_none (s : Settings) (env : ExtEnv)
    (st2 : PositionStore) (symbol : String) (P : ℚ) (strat : Bool)
    (h : (check_and_handle_risk_conditions s env st2 symbol P strat).sellCall
      = none) :
    (check_and_handle_risk_conditions s env st2 symbol P strat).sold = false := by
  rcases (risk_spec s env st2 symbol P strat).2 with ⟨_, hs⟩ | ⟨e2, _, hcase⟩
  · exact hs
  · rcases hcase with ⟨hc, _⟩ | ⟨hc, _⟩ | ⟨hc, _⟩ <;> rw [h] at hc <;> simp at hc

/-- C1 counterexample: hold tick with position XRPUSDT at entry 100, price
101 and the settings of settings.py. Neither stop-loss nor take-profit is
triggered, yet the tick makes a sell execution call: the minimum-profit block
sells on its own because the return 1 percent is at least MIN_PROFIT_RATIO
0.002. -/
theorem minprofit_gate_fires_on_hold_tick :
    is_stop_loss_triggered defaultSettings "XRPUSDT" 101 (some 100) = false
      ∧ is_take_profit_reached defaultSettings "XRPUSDT" 101 (some 100) = false
      ∧ (processTick defaultSettings okEnv openStoreXRP "XRPUSDT"
          Signal.hold 101).sellCalls = [SellTrigger.minProfit] := by
  refine ⟨?_, ?_, ?_⟩
  · norm_num [is_stop_loss_triggered, defaultSettings]
  · norm_num [is_take_profit_reached, defaultSettings]
  · norm_num [processTick, check_and_handle_risk_conditions, has_open_position,
      load_last_buy_price, is_stop_loss_triggered, is_take_profit_reached,
      is_enough_profit, execute_trade_action, clear_position, openStoreXRP,
      okEnv, defaultSettings]

/-- C1 (amended): on a hold tick with an open position and neither stop-loss
nor take-profit triggered, every sell execution call made is the
minimum-profit one, and none is made when USE_MIN_PROFIT is off or the return
since entry is below the minimum-profit ratio; when USE_MIN_PROFIT is on and
the return reaches the ratio, the minimum-profit block does trigger a sell by
itself. -/
theorem hold_tick_sell_calls_only_minprofit (s : Settings) (env : ExtEnv)
    (st : PositionStore) (symbol : String) (e P : ℚ)
    (hopen : st symbol = some (some e))
    (hSL : is_stop_loss_triggered s symbol P (some e) = false)
    (hTP : is_take_profit_reached s symbol P (some e) = false) :
    (∀ trig ∈ (processTick s env st symbol Signal.hold P).sellCalls,
        trig = SellTrigger.minProfit)
      ∧ ((s.useMinProfit = false ∨ is_enough_profit s symbol P (some e) = false) →
        (processTick s env st symbol Signal.hold P).sellCalls = []) := by
  have hload : load_last_buy_price st symbol = some e := by
    simp [load_last_buy_price, hopen]
  have only1 := risk_minprofit_only s env st symbol P false e (Or.inl hload)
    hSL hTP
  have hload3 : load_last_buy_price
        (check_and_handle_risk_conditions s env st symbol P false).store symbol
      = some e
      ∨ (check_and_handle_risk_conditions s env st symbol P false).store symbol
      = none := by
    rcases risk_store_load s env st symbol P false with h | h
    · exact Or.inl (h.trans hload)
    · exact Or.inr h
  have only3 := risk_minprofit_only s env
    (check_and_handle_risk_conditions s env st symbol P false).store symbol P
    false e hload3 hSL hTP
  simp only [processTick]
  by_cases hsold :
      (check_and_handle_risk_conditions s env st symbol P false).sold = true
  · rw [if_pos hsold]
    dsimp only
    constructor
    · intro trig htrig
      rcases only1 with h | ⟨h, _, _, _⟩
      · rw [h] at htrig
        simp at htrig
      · rw [h] at htrig
        simpa using htrig
    · intro hno
      rcases only1 with h | ⟨h, hmp, _, hep⟩
      · simp [h]
      · exfalso
        rcases hno with hno | hno
        · rw [hno] at hmp
          exact Bool.false_ne_true hmp
        · rw [hno] at hep
          exact Bool.false_ne_true hep
  · rw [if_neg hsold]
    dsimp only
    constructor
    · intro trig htrig
      rcases List.mem_append.mp htrig with h | h
      · rcases only1 with hc | ⟨hc, _, _, _⟩
        · rw [hc] at h
          simp at h
        · rw [hc] at h
          simpa using h
      · rcases only3 with hc | ⟨hc, _, _, _⟩
        · rw [hc] at h
          simp at h
        · rw [hc] at h
          simpa using h
    · intro hno
      have h1 : (check_and_handle_risk_conditions s env st symbol P
          false).sellCall = none := by
        rcases only1 with h | ⟨h, hmp, _, hep⟩
        · exact h
        · exfalso
          rcases hno with hno | hno
          · rw [hno] at hmp
            exact Bool.false_ne_true hmp
          · rw [hno] at hep
            exact Bool.false_ne_true hep
      have h3 : (check_and_handle_risk_conditions s env
          (check_and_handle_risk_conditions s env st symbol P false).store
          symbol P false).sellCall = none := by
        rcases only3 with h | ⟨h, hmp, _, hep⟩
        · exact h
        · exfalso
          rcases hno with hno | hno
          · rw [hno] at hmp
            exact Bool.false_ne_true hmp
          · rw [hno] at hep
            exact Bool.false_ne_true hep
      simp [h1, h3]

/-- C1 witness: hold tick at entry 100 and price 100 (return zero, below the
minimum-profit ratio): no sell execution call is made. -/
theorem hold_tick_sell_calls_only_minprofit_witness :
    openStoreXRP "XRPUSDT" = some (some 100)
      ∧ (processTick defaultSettings okEnv openStoreXRP "XRPUSDT"
          Signal.hold 100).sellCalls = [] := by
  refine ⟨by simp [openStoreXRP], ?_⟩
  exact (hold_tick_sell_calls_only_minprofit defaultSettings okEnv openStoreXRP
    "XRPUSDT" 100 100 (by simp [openStoreXRP])
    (by norm_num [is_stop_loss_triggered, defaultSettings])
    (by norm_num [is_take_profit_reached, defaultSettings])).2
    (Or.inr (by norm_num [is_enough_profit, defaultSettings]))

/-- C3: on a tick with an open position at entry e > 0, a return (P - e) / e
below the minimum-profit ratio and neither the stop-loss nor the take-profit
condition holding, no sell execution call is made even when the strategy
signal is sell: the risk block refuses both times it is consulted, and the
strategy sell branch never reaches its own execute call. -/
theorem below_minprofit_sell_tick_no_sell_call (s : Settings) (env : ExtEnv)
    (st : PositionStore) (symbol : String) (e P : ℚ)
    (hopen : st symbol = some (some e)) (he : 0 < e)
    (hmin : (P - e) / e < s.minProfitRatio)
    (hSL : ¬((P - e) / e < s.stopLossRatio))
    (hTP : ¬((P - e) / e ≥ s.takeProfitRatio)) :
    (processTick s env st symbol Signal.sell P).sellCalls = [] := by
  have hload : load_last_buy_price st symbol = some e := by
    simp [load_last_buy_price, hopen]
  have hSLf : is_stop_loss_triggered s symbol P (some e) = false := by
    rw [Bool.eq_false_iff]
    intro h
    exact hSL ((stop_loss_iff s symbol P e).mp h).2.2
  have hTPf : is_take_profit_reached s symbol P (some e) = false := by
    rw [Bool.eq_false_iff]
    intro h
    exact hTP ((take_profit_iff s symbol P e).mp h).2.2
  have hEPf : is_enough_profit s symbol P (some e) = false := by
    rw [Bool.eq_false_iff]
    intro h
    have h2 := ((enough_profit_iff s symbol P e).mp h).2
    have h3 : s.minProfitRatio ≤ (P - e) / e := by
      rw [le_div_iff₀ he]
      nlinarith
    exact absurd hmin (not_lt.mpr h3)
  have only1 := risk_minprofit_only s env st symbol P false e (Or.inl hload)
    hSLf hTPf
  have h1 : (check_and_handle_risk_conditions s env st symbol P
      false).sellCall = none := by
    rcases only1 with h | ⟨_, _, _, hep⟩
    · exact h
    · rw [hEPf] at hep
      exact absurd hep Bool.false_ne_true
  have hsold1 := risk_sold_false_of_none s env st symbol P false h1
  have hload2 : load_last_buy_price
        (check_and_handle_risk_conditions s env st symbol P false).store symbol
      = some e
      ∨ (check_and_handle_risk_conditions s env st symbol P false).store symbol
      = none := by
    rcases risk_store_load s env st symbol P false with h | h
    · exact Or.inl (h.trans hload)
    · exact Or.inr h
  have only2 := risk_minprofit_only s env
    (check_and_handle_risk_conditions s env st symbol P false).store symbol P
    true e hload2 hSLf hTPf
  have h2c : (check_and_handle_risk_conditions s env
      (check_and_handle_risk_conditions s env st symbol P false).store
      symbol P true).sellCall = none := by
    rcases only2 with h | ⟨_, _, hstrat, _⟩
    · exact h
    · simp at hstrat
  simp only [processTick]
  rw [if_neg (by simp [hsold1])]
  dsimp only
  simp [h1, h2c]

/-- C3 witness: entry 100 and price 100 (return zero, below the minimum
profit ratio 0.002, above the stop-loss ratio -0.02, below the take-profit
ratio 0.05) with a strategy sell signal: no sell execution call is made. -/
theorem below_minprofit_sell_tick_no_sell_call_witness :
    (0 : ℚ) < 100
      ∧ (processTick defaultSettings okEnv openStoreXRP "XRPUSDT"
          Signal.sell 100).sellCalls = [] := by
  refine ⟨by norm_num, ?_⟩
  exact below_minprofit_sell_tick_no_sell_call defaultSettings okEnv
    openStoreXRP "XRPUSDT" 100 100 (by simp [openStoreXRP]) (by norm_num)
    (by norm_num [defaultSettings]) (by norm_num [defaultSettings])
    (by norm_num [defaultSettings])

/-- C2 failing input: a tick with an open position, a benign environment and
a strategy sell signal. The sell branch of price_processor reads the unbound
local proceed_with_strategy_sell (or, with USE_MIN_PROFIT_FOR_STRATEGY_SELL
set, calls is_enough_profit with two of its three required arguments), so an
exception escapes the per-tick code; the outer handler sets stop_event and
the processor exits instead of treating the tick as hold and continuing. -/
theorem sell_signal_tick_sets_stop_and_exits :
    (processTick defaultSettings okEnv openStoreXRP "XRPUSDT"
        Signal.sell 100).error = true
      ∧ tickFate (processTick defaultSettings okEnv openStoreXRP "XRPUSDT"
          Signal.sell 100) = TickFate.exitStopSet := by
  have h : (processTick defaultSettings okEnv openStoreXRP "XRPUSDT"
      Signal.sell 100).error = true := by
    norm_num [processTick, check_and_handle_risk_conditions, has_open_position,
      load_last_buy_price, is_stop_loss_triggered, is_take_profit_reached,
      is_enough_profit, execute_trade_action, clear_position, openStoreXRP,
      okEnv, defaultSettings]
  exact ⟨h, by simp [tickFate, h]⟩

/-- C4 failing input: no open position and a strategy sell signal. No
order-execution call is made (nothing to sell) and no buy happens, but the
tick does not complete normally: the sell branch raises on the unbound
proceed_with_strategy_sell, the outer handler sets stop_event, and the
processor exits, contradicting the claim that the error branch is
unreachable and the cancellation signal stays unset. -/
theorem no_position_sell_tick_errors :
    (processTick defaultSettings okEnv emptyStore "XRPUSDT"
        Signal.sell 101).sellCalls = []
      ∧ (processTick defaultSettings okEnv emptyStore "XRPUSDT"
          Signal.sell 101).buyCall = false
      ∧ (processTick defaultSettings okEnv emptyStore "XRPUSDT"
          Signal.sell 101).error = true
      ∧ tickFate (processTick defaultSettings okEnv emptyStore "XRPUSDT"
          Signal.sell 101) = TickFate.exitStopSet := by
  have h : (processTick defaultSettings okEnv emptyStore "XRPUSDT"
        Signal.sell 101).sellCalls = []
      ∧ (processTick defaultSettings okEnv emptyStore "XRPUSDT"
          Signal.sell 101).buyCall = false
      ∧ (processTick defaultSettings okEnv emptyStore "XRPUSDT"
          Signal.sell 101).error = true := by
    norm_num [processTick, check_and_handle_risk_conditions, has_open_position,
      load_last_buy_price, is_stop_loss_triggered, is_take_profit_reached,
      is_enough_profit, execute_trade_action, clear_position, emptyStore,
      okEnv, defaultSettings]
  exact ⟨h.1, h.2.1, h.2.2, by simp [tickFate, h.2.2]⟩
